import Mathlib

/-!
Shallow embedding of the JMAP / iCalendar calendar-event translator
(src/imap/jmap_ical.c) together with proofs about its behaviour.

The embedding models the translator's own logic faithfully, line by line.
External collaborators (the jansson JSON library, libical value printers,
the timezone database, the JSON-patch helper living in another file of the
repository) are modelled at their interface: JSON values as an inductive
type, timezone handles as identifiers resolved through a lookup function,
and so on.  Each definition cites the source lines it embeds.
-/

namespace JmapIcal

/-- JSON values, as handed around through the jansson library.  Objects keep
their members in insertion order, mirroring jansson with
JSON_PRESERVE_ORDER as used by this code. -/
inductive Json where
  | null
  | bool (b : Bool)
  | int (n : Int)
  | str (s : String)
  | arr (elems : List Json)
  | obj (members : List (String × Json))

/-- json_object_get: look a key up in an object; returns NULL (here: none)
for a missing key and for any non-object value. -/
def Json.get? (j : Json) (k : String) : Option Json :=
  match j with
  | .obj ms => (ms.find? (fun m => m.1 == k)).map (fun m => m.2)
  | _ => none

/-- json_object_size: number of members of an object, 0 for anything else. -/
def Json.objSize (j : Json) : Nat :=
  match j with
  | .obj ms => ms.length
  | _ => 0

/-- The member keys of an object (empty for non-objects). -/
def Json.keys (j : Json) : List String :=
  match j with
  | .obj ms => ms.map (fun m => m.1)
  | _ => []

/-- json_object_set_new on an object: replace the value of an existing key in
place, otherwise append the new member. -/
def setMember : List (String × Json) → String → Json → List (String × Json)
  | [], k, v => [(k, v)]
  | m :: ms, k, v => if m.1 == k then (k, v) :: ms else m :: setMember ms k v

/-- json_object_set_new at the Json level; non-objects are left unchanged
(jansson rejects the call). -/
def Json.setNew (j : Json) (k : String) (v : Json) : Json :=
  match j with
  | .obj ms => .obj (setMember ms k v)
  | other => other

/-- json_is_null applied to the (possibly NULL) result of json_object_get:
true only when the value is present and is the JSON null literal. -/
def jsonIsNull : Option Json → Bool
  | some .null => true
  | _ => false

/-- JNOTNULL (src/imap/jmap_ical.c:133-138): present and not the null
literal. -/
def jnotnull : Option Json → Bool
  | none => false
  | some .null => false
  | some _ => true

/-! ## The invalid-property map

ctx->invalid is a jansson object keyed by JSON Pointer strings
(src/imap/jmap_ical.c:109, 279-284).  Keys are unique and keep insertion
order, so the map is a list of distinct strings grown by insertion. -/

/-- Insert a pointer string into the invalid-property map
(json_object_set_new on ctx->invalid, jmap_ical.c:279-284): inserting an
already present key leaves the map unchanged. -/
def insertInvalid (m : List String) (p : String) : List String :=
  if m.contains p then m else m ++ [p]

/-- Record a batch of pointer strings, in order, into the map. -/
def addInvalids (m : List String) (adds : List String) : List String :=
  adds.foldl insertInvalid m

/-- json_pointer_encode, applied when a path segment needs escaping
(jmap_ical.c:189-247): escape the two JSON Pointer special characters. -/
def jsonPointerEncode (s : String) : String :=
  String.mk (s.toList.foldr
    (fun c acc =>
      if c == '~' then '~' :: '0' :: acc
      else if c == '/' then '~' :: '1' :: acc
      else c :: acc) [])

/-! ## readprop (src/imap/jmap_ical.c:344-363)

readprop looks a field up, unpacks it against a jansson format, and records
the field as invalid when it is mandatory-but-missing or fails to unpack. -/

/-- Outcome of readprop: `missing` is return value 0 (absent, not
mandatory), `invalid` is a negative return (the field was recorded in the
invalid map by the caller-supplied name), `ok` is a positive return. -/
inductive ReadResult (α : Type) where
  | missing
  | invalid
  | ok (a : α)

/-- readprop: `jval` is json_object_get(from, name); `unpack` models the
json_unpack_ex format check. -/
def readprop {α : Type} (jval : Option Json) (mandatory : Bool)
    (unpack : Json → Option α) : ReadResult α :=
  match jval with
  | none => if mandatory then .invalid else .missing
  | some v =>
    match unpack v with
    | some a => .ok a
    | none => .invalid

/-- jansson format "s": accept exactly strings. -/
def unpackS : Json → Option String
  | .str s => some s
  | _ => none

/-- jansson formats "i" and "I": accept exactly integers. -/
def unpackI : Json → Option Int
  | .int n => some n
  | _ => none

/-- jansson format "b": accept exactly booleans. -/
def unpackB : Json → Option Bool
  | .bool b => some b
  | _ => none

/-- jansson format "o": accept any value. -/
def unpackO : Json → Option Json := fun v => some v

/-! ## Local datetimes (src/imap/jmap_ical.c:2563-2616)

localdate_to_tm parses the JMAP LocalDate format
"%Y-%m-%dT%H:%M:%S" with strptime and requires the whole input to be
consumed.  The parser below mirrors that: a run of digits per field, the
literal separators, and the strptime field ranges. -/

/-- Broken-down time as filled in by strptime (month given 1-based here). -/
structure Tm where
  year : Nat
  mon : Nat
  mday : Nat
  hour : Nat
  minute : Nat
  sec : Nat
deriving Repr, DecidableEq

/-- Split a leading run of decimal digits off a character list. -/
def splitDigits (cs : List Char) : List Char × List Char :=
  (cs.takeWhile Char.isDigit, cs.dropWhile Char.isDigit)

/-- Numeric value of a digit run. -/
def digitsVal (ds : List Char) : Nat :=
  ds.foldl (fun a c => a * 10 + (c.toNat - 48)) 0

/-- Consume one expected literal character. -/
def expectChar (c : Char) : List Char → Option (List Char)
  | x :: xs => if x == c then some xs else none
  | [] => none

/-- One two-digit strptime field with an inclusive range check. -/
def tmField (lo hi : Nat) (cs : List Char) : Option (Nat × List Char) :=
  let (ds, rest) := splitDigits cs
  if ds.isEmpty then none
  else if ds.length > 2 then none
  else
    let v := digitsVal ds
    if lo ≤ v && v ≤ hi then some (v, rest) else none

/-- localdate_to_tm (jmap_ical.c:2565-2576): parse
"%Y-%m-%dT%H:%M:%S", rejecting trailing input. -/
def localdate_to_tm (s : String) : Option Tm := do
  let cs := s.toList
  let (yds, r0) := splitDigits cs
  if yds.isEmpty then none
  else do
    let r1 ← expectChar '-' r0
    let (mon, r2) ← tmField 1 12 r1
    let r3 ← expectChar '-' r2
    let (mday, r4) ← tmField 1 31 r3
    let r5 ← expectChar 'T' r4
    let (hour, r6) ← tmField 0 23 r5
    let r7 ← expectChar ':' r6
    let (minute, r8) ← tmField 0 59 r7
    let r9 ← expectChar ':' r8
    let (sec, r10) ← tmField 0 60 r9
    if r10.isEmpty then some ⟨digitsVal yds, mon, mday, hour, minute, sec⟩ else none

/-- A timezone handle: the zone identifier resolved through the timezone
database.  tz_from_tzid returns the same handle for the same identifier, so
handle equality is identifier equality; NULL is `Option.none` at use
sites. -/
abbrev Tz := String

/-- An icaltimetype value as far as this code inspects it: the broken-down
time, the zone it is anchored in (none = floating), and the DATE flag. -/
structure IcalTime where
  tm : Tm
  zone : Option Tz
  is_date : Bool
deriving Repr, DecidableEq

/-- localdate_to_icaltime (jmap_ical.c:2580-2616): parse a LocalDate, reject
a non-midnight time of day for all-day values, and anchor the result in
`tz`; the result is a DATE value exactly when all-day and floating.  (The
icaltime_from_string round-trip through libical cannot fail on a string
rendered from a successfully parsed tm, so it is not a separate failure
point here.) -/
def localdate_to_icaltime (s : String) (tz : Option Tz) (is_allday : Bool) :
    Option IcalTime :=
  match localdate_to_tm s with
  | none => none
  | some tm =>
    if is_allday && (tm.sec != 0 || tm.minute != 0 || tm.hour != 0) then none
    else some { tm := tm, zone := tz, is_date := is_allday && tz.isNone }

/-! ## Durations (libical icaldurationtype at this code's interface)

icaldurationtype_from_string / icaldurationtype_as_ical_string are libical
collaborators; the code only feeds them ISO-8601 durations and inspects
is_neg and the bad-duration marker.  The model below parses
[+|-]P[nW][nD][T[nH][nM][nS]] and prints the sign from is_neg. -/

/-- icaldurationtype: sign flag plus the unsigned components. -/
structure IcalDuration where
  is_neg : Bool
  weeks : Nat
  days : Nat
  hours : Nat
  minutes : Nat
  seconds : Nat
deriving Repr, DecidableEq

/-- Try to consume "digits unit"; on no match return the input unchanged
with a false flag. -/
def tryUnit (u : Char) (cs : List Char) : Nat × List Char × Bool :=
  let (ds, rest) := splitDigits cs
  match rest with
  | c :: rest2 =>
    if c == u && !ds.isEmpty then (digitsVal ds, rest2, true) else (0, cs, false)
  | [] => (0, cs, false)

/-- icaldurationtype_from_string: none models the bad-duration marker
(icaldurationtype_is_bad_duration). -/
def icaldurationtype_from_string (s : String) : Option IcalDuration :=
  let cs := s.toList
  let (neg, cs1) :=
    match cs with
    | '-' :: r => (true, r)
    | '+' :: r => (false, r)
    | r => (false, r)
  match cs1 with
  | 'P' :: r0 =>
    let (w, r1, m1) := tryUnit 'W' r0
    let (d, r2, m2) := tryUnit 'D' r1
    match r2 with
    | 'T' :: r3 =>
      let (h, r4, m3) := tryUnit 'H' r3
      let (mi, r5, m4) := tryUnit 'M' r4
      let (se, r6, m5) := tryUnit 'S' r5
      if r6.isEmpty && (m1 || m2 || m3 || m4 || m5) then
        some ⟨neg, w, d, h, mi, se⟩
      else none
    | r3 =>
      if r3.isEmpty && (m1 || m2) then some ⟨neg, w, d, 0, 0, 0⟩ else none
  | _ => none

/-- The unsigned part of the printed duration, always led by 'P'. -/
def durationBody (d : IcalDuration) : String :=
  let dpart :=
    (if d.weeks != 0 then toString d.weeks ++ "W" else "")
      ++ (if d.days != 0 then toString d.days ++ "D" else "")
  let tpart :=
    (if d.hours != 0 then toString d.hours ++ "H" else "")
      ++ (if d.minutes != 0 then toString d.minutes ++ "M" else "")
      ++ (if d.seconds != 0 then toString d.seconds ++ "S" else "")
  let units := dpart ++ (if tpart.isEmpty then "" else "T" ++ tpart)
  "P" ++ (if units.isEmpty then "T0S" else units)

/-- icaldurationtype_as_ical_string: minus sign exactly when is_neg. -/
def icaldurationtype_as_ical_string (d : IcalDuration) : String :=
  if d.is_neg then "-" ++ durationBody d else durationBody d

/-! ## rsvpResponse resolution (src/imap/jmap_ical.c:1221-1264)

participant_from_ical resolves an attendee's rsvpResponse in a while loop:
start at the attendee's PARTSTAT; on DELEGATED, look the value of the
DELEGATED-TO parameter up in the hash of all attendees (keyed by attendee
URI, jmap_ical.c:1384-1391) and repeat, guarded by a depth counter capped
at 64.  Note that line 1244 reads the DELEGATED-TO parameter of `prop`,
the attendee the loop started from, on every iteration. -/

/-- The PARTSTAT values the switch at jmap_ical.c:1232-1263 distinguishes;
every other value falls into the default arm, collected here as `other`. -/
inductive PartStat where
  | accepted
  | declined
  | tentative
  | delegated
  | other
deriving Repr, DecidableEq

/-- An ATTENDEE property, as far as the rsvpResponse loop reads it: the
first PARTSTAT parameter (if any) and the value of the first DELEGATED-TO
parameter (if any; a parsed parameter always carries a value). -/
structure Attendee where
  partstat : Option PartStat
  delegatedTo : Option String
deriving Repr, DecidableEq

/-- hash_lookup in the per-component attendee table, keyed by the attendee
URI string. -/
def hash_lookup (key : String) (t : List (String × Attendee)) : Option Attendee :=
  (t.find? (fun e => e.1 == key)).map (fun e => e.2)

/-- One iteration of the while loop at jmap_ical.c:1225-1264.  The state is
the current rsvp_prop together with the depth counter; `prop` is the
attendee the resolution started from (whose DELEGATED-TO parameter line
1244 consults).  `Sum.inl r` means the loop exits with rsvp = r, `Sum.inr`
continues with the new state. -/
def rsvp_step (hatts : List (String × Attendee)) (prop : Attendee) :
    Attendee × Nat → String ⊕ (Attendee × Nat)
  | (cur, depth) =>
    match cur.partstat with
    | none => Sum.inl "needs-action"
    | some .accepted => Sum.inl "accepted"
    | some .declined => Sum.inl "declined"
    | some .tentative => Sum.inl "tentative"
    | some .other => Sum.inl "needs-action"
    | some .delegated =>
      match prop.delegatedTo with
      | some uri =>
        match hash_lookup uri hatts with
        | some next =>
          if depth + 1 > 64 then Sum.inl "needs-action"
          else Sum.inr (next, depth + 1)
        | none => Sum.inl "needs-action"
      | none => Sum.inl "needs-action"

/-- Iterate the loop for at most `fuel` iterations; none means the loop has
not exited yet after `fuel` iterations. -/
def rsvp_run (hatts : List (String × Attendee)) (prop : Attendee) :
    Nat → Attendee × Nat → Option String
  | 0, _ => none
  | fuel + 1, s =>
    match rsvp_step hatts prop s with
    | Sum.inl r => some r
    | Sum.inr s2 => rsvp_run hatts prop fuel s2

/-- The rsvpResponse the loop computes for an attendee.  65 iterations
always suffice (theorem rsvp_resolution_terminates below), so the default
of getD is never taken. -/
def participant_rsvpResponse (hatts : List (String × Attendee))
    (prop : Attendee) : String :=
  (rsvp_run hatts prop 65 (prop, 0)).getD "needs-action"

/-! ## Alerts: the sign fold (src/imap/jmap_ical.c:1728-1812, 3479-3565) -/

/-- The RELATED trigger parameter values this code distinguishes.  On the
read path only START and END survive (jmap_ical.c:1758-1764); on the write
path NONE is the initial value before relativeTo is interpreted. -/
inductive IcalRelated where
  | relNone
  | relStart
  | relEnd
deriving Repr, DecidableEq

/-- alerts_from_ical lines 1791-1807: compute relativeTo from the sign of
the trigger duration and the RELATED parameter, then clear the sign and
emit the duration as offset. -/
def alert_relativeTo_offset (duration : IcalDuration) (related : IcalRelated) :
    String × IcalDuration :=
  let relativeTo :=
    if duration.is_neg then
      if related == IcalRelated.relStart then "before-start" else "before-end"
    else
      if related == IcalRelated.relStart then "after-start" else "after-end"
  (relativeTo, { duration with is_neg := false })

/-- Result of the offset / relativeTo fragment of alerts_to_ical
(jmap_ical.c:3513-3540): the invalid-path names recorded (relative to the
alerts/<id> prefix), the trigger duration (none while unset or the
bad-duration marker), and the RELATED parameter value. -/
structure TriggerFrag where
  adds : List String
  duration : Option IcalDuration
  rel : IcalRelated
deriving Repr, DecidableEq

/-- The offset / relativeTo fragment of alerts_to_ical (jmap_ical.c:
3513-3540): read the mandatory offset and parse it as a duration; read the
mandatory relativeTo and, for the two before-* values, set the negative
sign on the trigger duration. -/
def alert_trigger_to_ical (alert : Json) : TriggerFrag :=
  let offR : List String × Option IcalDuration :=
    match readprop (alert.get? "offset") true unpackS with
    | .ok s =>
      match icaldurationtype_from_string s with
      | some d => (([] : List String), some d)
      | none => (["offset"], none)
    | .invalid => (["offset"], none)
    | .missing => ([], none)
  let relR : List String × IcalRelated × Option IcalDuration :=
    match readprop (alert.get? "relativeTo") true unpackS with
    | .ok s =>
      if s == "before-start" then
        (([] : List String), IcalRelated.relStart,
          offR.2.map (fun d => { d with is_neg := true }))
      else if s == "after-start" then ([], .relStart, offR.2)
      else if s == "before-end" then
        ([], .relEnd, offR.2.map (fun d => { d with is_neg := true }))
      else if s == "after-end" then ([], .relEnd, offR.2)
      else (["relativeTo"], .relNone, offR.2)
    | .invalid => (["relativeTo"], .relNone, offR.2)
    | .missing => ([], .relNone, offR.2)
  { adds := offR.1 ++ relR.1, duration := relR.2.2, rel := relR.2.1 }

/-! ## Recurrence overrides on the write path (src/imap/jmap_ical.c:4306-4395)

overrides_to_ical walks the recurrenceOverrides object.  Each entry either
records an invalid path, emits an EXDATE or RDATE, is skipped because the
patch carries a forbidden key, or is materialized as an exception VEVENT by
applying the patch to the master event. -/

/-- The key set of jmap_ical.c:4341-4348; a patch carrying any of these is
skipped entirely (the JMAP specification quoted at 4338-4339: a patch with
such a key MUST be ignored). -/
def forbidden_override_keys : List String :=
  ["uid", "relatedTo", "prodId", "isAllDay", "recurrenceRule",
   "recurrenceOverrides", "replyTo", "participantId"]

/-- What one loop body of overrides_to_ical does with one override entry. -/
inductive OverrideAction where
  | invalidProp
  | exdate (t : IcalTime)
  | rdate (t : IcalTime)
  | ignored
  | exception (ex : Json)

/-- One iteration of the json_object_foreach loop in overrides_to_ical
(jmap_ical.c:4306-4395), for the entry with key `id` and value `override`.
`patchApply` is jmap_patchobject_apply, the JSON-patch helper defined in
another file of the repository (none models its NULL failure return);
`tzstart` and `is_allday` come from the surrounding context. -/
def override_to_ical_one (patchApply : Json → Json → Option Json)
    (tzstart : Option Tz) (is_allday : Bool) (master : Json)
    (id : String) (override : Json) : OverrideAction :=
  match localdate_to_icaltime id tzstart is_allday with
  | none => .invalidProp
  | some start =>
    match override.get? "excluded" with
    | some excl =>
      match excl, override.objSize with
      | .bool true, 1 => .exdate start
      | _, _ => .invalidProp
    | none =>
      if override.objSize == 0 then .rdate start
      else if override.keys.any (fun k => forbidden_override_keys.contains k) then
        .ignored
      else
        let ov :=
          match override.get? "start" with
          | some _ => override
          | none => override.setNew "start" (Json.str id)
        match patchApply master ov with
        | none => .invalidProp
        | some ex => .exception ex

/-- Modelled from the spec: jmap_patchobject_apply is defined outside
src/imap/jmap_ical.c.  The spec describes it as applying a JSON patch
against the master event, producing a synthetic full event.  This concrete
stand-in sets each top-level patch key on a copy of the master; it is used
only to instantiate the patchApply parameter in closed statements. -/
def patch_apply_toplevel (master patch : Json) : Option Json :=
  match patch with
  | .obj ms => some (ms.foldl (fun acc kv => acc.setNew kv.1 kv.2) master)
  | _ => none

/-! ## Recurrence terminators on the write path (src/imap/jmap_ical.c:3865-3894)

recurrence_to_ical pushes the path prefix "recurrenceRule" (line 3639)
before handling the rule fields; the count / until section is modelled
below with the full pointer paths it records. -/

/-- An RRULE fragment appended by the terminator section: the COUNT value,
or the UNTIL local datetime (converted into UTC by libical before
printing). -/
inductive RRulePart where
  | count (n : Int)
  | until (dt : IcalTime)
deriving Repr, DecidableEq

/-- The count / until section of recurrence_to_ical (jmap_ical.c:3865-3894):
both keys present records invalid paths for both; a count is emitted only
when positive and no until key exists; an until is emitted when it parses
as a local datetime in the start zone. -/
def recurrence_terminators_to_ical (recur : Json) (tzstart : Option Tz)
    (is_allday : Bool) : List String × List RRulePart :=
  let a1 :=
    if (recur.get? "count").isSome && (recur.get? "until").isSome then
      ["recurrenceRule/count", "recurrenceRule/until"]
    else []
  let countR :=
    match readprop (recur.get? "count") false unpackI with
    | .ok c =>
      if c > 0 && (recur.get? "until").isNone then
        (([] : List String), [RRulePart.count c])
      else (["recurrenceRule/count"], [])
    | .invalid => (["recurrenceRule/count"], [])
    | .missing => ([], [])
  let untilR :=
    match readprop (recur.get? "until") false unpackS with
    | .ok u =>
      match localdate_to_icaltime u tzstart is_allday with
      | some dt => (([] : List String), [RRulePart.until dt])
      | none => (["recurrenceRule/until"], [])
    | .invalid => (["recurrenceRule/until"], [])
    | .missing => ([], [])
  (addInvalids (addInvalids (addInvalids [] a1) countR.1) untilR.1,
   countR.2 ++ untilR.2)

/-! ## The temporal layer on the write path (src/imap/jmap_ical.c:2680-2861)

startend_to_ical computes the four timezone handles, the duration string
and the new start, recording invalid paths along the way, and bails out
before touching the component when any path was recorded.  It is modelled
phase by phase; each phase returns the pointer paths it records, and
startend_to_ical folds them into the invalid map in program order. -/

/-- location_is_endtimezone (jmap_ical.c:2680-2685): the rel member is the
string "end" and a timeZone member exists. -/
def location_is_endtimezone (loc : Json) : Bool :=
  match loc.get? "rel" with
  | some (.str rel) => (loc.get? "timeZone").isSome && rel == "end"
  | _ => false

/-- The first member of the locations object satisfying
location_is_endtimezone (the foreach with break at jmap_ical.c:2744-2779);
iterating a non-object visits nothing. -/
def find_endtimezone_loc (locations : Json) : Option (String × Json) :=
  match locations with
  | .obj ms => ms.find? (fun m => location_is_endtimezone m.2)
  | _ => none

/-- The pre-existing VEVENT state startend_to_ical reads: the TZID carried
by DTSTART and DTEND (tzid_from_ical), the current duration rendering
(duration_from_ical, consulted in update mode), and the current DTSTART
value (dtstart_from_ical; none for a freshly created component). -/
structure CompTemporal where
  dtstartTzid : Option String
  dtendTzid : Option String
  oldDuration : String
  oldDtstart : Option IcalTime
deriving Repr, DecidableEq

/-- A freshly created VEVENT, as built by jmapical_toical for a create. -/
def freshComp : CompTemporal :=
  { dtstartTzid := none, dtendTzid := none, oldDuration := "", oldDtstart := none }

/-- Lines 2700-2726: determine the current start timezone and read the new
one from the event's timeZone member.  Returns the recorded paths, the new
tzstart, and the (possibly updated) tzstart_old. -/
def startend_starttz (tzdb : String → Option Tz) (event : Json)
    (isCreate isAllDay : Bool) (compDtstartTzid : Option String) :
    List String × Option Tz × Option Tz :=
  let tzstart_old :=
    match compDtstartTzid with
    | some tzid => tzdb tzid
    | none => none
  let r : List String × Option Tz :=
    if !jsonIsNull (event.get? "timeZone") then
      match readprop (event.get? "timeZone") (isCreate && !isAllDay) unpackS with
      | .ok v =>
        match tzdb v with
        | some tz => ([], some tz)
        | none => (["timeZone"], none)
      | .invalid => (["timeZone"], none)
      | .missing => ([], tzstart_old)
    else ([], none)
  (r.1, r.2, if isCreate then r.2 else tzstart_old)

/-- Lines 2728-2790: determine the current end timezone and read the new
one from the first rel="end" location carrying a timeZone.  Returns the
recorded paths, the new tzend, the updated tzend_old, and the identifier of
the end-zone location if one was found. -/
def startend_endtz (tzdb : String → Option Tz) (event : Json)
    (isCreate isAllDay : Bool) (compDtendTzid : Option String)
    (tzstart tzstart_old : Option Tz) :
    List String × Option Tz × Option Tz × Option String :=
  let tzend_old :=
    match compDtendTzid with
    | some tzid => tzdb tzid
    | none => tzstart_old
  let r : List String × Option Tz × Option String :=
    match event.get? "locations" with
    | some locs =>
      if jsonIsNull (some locs) then ([], none, none)
      else
        match find_endtimezone_loc locs with
        | some idloc =>
          let path := "locations/" ++ jsonPointerEncode idloc.1 ++ "/timeZone"
          let rz : List String × Option Tz :=
            if !jsonIsNull (idloc.2.get? "timeZone") then
              match idloc.2.get? "timeZone" with
              | some (.str tzid) => ([], tzdb tzid)
              | _ => ([path], none)
            else ([], none)
          let a2 := if tzstart.isNone != rz.2.isNone then [path] else []
          let a3 := if isAllDay && rz.2.isSome then [path] else []
          (rz.1 ++ a2 ++ a3, rz.2, some idloc.1)
        | none => ([], none, none)
    | none => ([], tzend_old, none)
  let tzend_old2 :=
    if isCreate then (if r.2.2.isSome then r.2.1 else tzstart) else tzend_old
  let tzend := if r.2.2.isNone then tzend_old2 else r.2.1
  (r.1, tzend, tzend_old2, r.2.2)

/-- Lines 2792-2818: determine the old duration, read and validate the new
one, and reject a time component for all-day events.  Returns the recorded
paths and the duration string in effect. -/
def startend_duration (event : Json) (isCreate isAllDay : Bool)
    (compOldDuration : String) : List String × String :=
  let dur_old := if isCreate then "P0D" else compOldDuration
  let r : List String × String :=
    match readprop (event.get? "duration") false unpackS with
    | .ok s =>
      match icaldurationtype_from_string s with
      | some _ => ([], s)
      | none => (["duration"], s)
    | .invalid => (["duration"], dur_old)
    | .missing => ([], dur_old)
  let a2 := if isAllDay && r.2.toList.contains 'T' then ["duration"] else []
  (r.1 ++ a2, r.2)

/-- Lines 2820-2833: read the new start (mandatory on create) and parse it
as a local datetime in the new start zone. -/
def startend_start (event : Json) (isCreate isAllDay : Bool)
    (tzstart : Option Tz) (oldDtstart : Option IcalTime) :
    List String × Option IcalTime :=
  match readprop (event.get? "start") isCreate unpackS with
  | .ok v =>
    match localdate_to_icaltime v tzstart isAllDay with
    | some dt => ([], some dt)
    | none => (["start"], oldDtstart)
  | .invalid => (["start"], oldDtstart)
  | .missing => ([], oldDtstart)

/-- The outcome of startend_to_ical: the invalid map it produced, the four
zone handles, the end-zone location identifier, the duration string, the
new start, and whether the purge-and-rebuild tail (lines 2842-2861) ran
(it is skipped by the bail-out at 2835-2837 exactly when the map is
non-empty). -/
structure StartEndResult where
  invalid : List String
  tzstart : Option Tz
  tzstart_old : Option Tz
  tzend : Option Tz
  tzend_old : Option Tz
  endzoneid : Option String
  dur : String
  dtstart : Option IcalTime
  wroteProps : Bool
deriving Repr, DecidableEq

/-- startend_to_ical (jmap_ical.c:2689-2861): the phases above composed in
program order.  `isAllDay` is ctx->is_allday as read by the caller at line
4453, `isCreate` is the absence of JMAPICAL_UPDATE_MODE. -/
def startend_to_ical (tzdb : String → Option Tz) (event : Json)
    (isCreate isAllDay : Bool) (comp : CompTemporal) : StartEndResult :=
  let p1 := startend_starttz tzdb event isCreate isAllDay comp.dtstartTzid
  let p2 := startend_endtz tzdb event isCreate isAllDay comp.dtendTzid
    p1.2.1 p1.2.2
  let p3 := startend_duration event isCreate isAllDay comp.oldDuration
  let p4 := startend_start event isCreate isAllDay p1.2.1 comp.oldDtstart
  let invalid :=
    addInvalids (addInvalids (addInvalids (addInvalids [] p1.1) p2.1) p3.1) p4.1
  { invalid := invalid
    tzstart := p1.2.1
    tzstart_old := p1.2.2
    tzend := p2.2.1
    tzend_old := p2.2.2.1
    endzoneid := p2.2.2.2
    dur := p3.2
    dtstart := p4.2
    wroteProps := invalid.isEmpty }

/-! ## Locating the main VEVENT on the read path (src/imap/jmap_ical.c:2508-2539) -/

/-- A VEVENT component of the top-level container, as far as the master
search inspects it: whether it carries a RECURRENCE-ID property, plus its
uid to tell components apart. -/
structure VEventInfo where
  hasRecurrenceId : Bool
  uid : String
deriving Repr, DecidableEq

/-- The master search of jmapical_tojmap (jmap_ical.c:2515-2527): the first
VEVENT without a RECURRENCE-ID, or - magic promote - the first VEVENT of
the container. -/
def tojmap_main_vevent (comps : List VEventInfo) : Option VEventInfo :=
  match comps.find? (fun c => !c.hasRecurrenceId) with
  | some c => some c
  | none => comps.head?

/-- jmapical_tojmap (jmap_ical.c:2508-2539): locate the main VEVENT (null
when the container holds no VEVENT at all) and translate it with
calendarevent_from_ical, abstracted here as `convert`. -/
def jmapical_tojmap (convert : VEventInfo → Json) (comps : List VEventInfo) :
    Option Json :=
  match tojmap_main_vevent comps with
  | some c => some (convert c)
  | none => none

/-! ## isAllDay / timeZone on the read path (src/imap/jmap_ical.c:2231-2244, 2389-2394) -/

/-- The isAllDay and timeZone members the read path emits. -/
structure FromIcalTz where
  isAllDay : Bool
  timeZone : Option String
deriving Repr, DecidableEq

/-- The start-timezone fragment of calendarevent_from_ical: lines 2231-2239
determine ctx->tzid_start and ctx->is_allday and discard a TZID found on a
date-valued DTSTART as bogus iCalendar data; lines 2241-2244 and 2389-2394
emit isAllDay and timeZone (null unless a tzid survives and the event is
not all-day). -/
def calendarevent_from_ical_tz (dtstartIsDate : Bool)
    (dtstartTzid : Option String) : FromIcalTz :=
  let is_allday := dtstartIsDate
  let tzid_start :=
    if is_allday && dtstartTzid.isSome then none else dtstartTzid
  { isAllDay := is_allday
    timeZone := if tzid_start.isSome && !is_allday then tzid_start else none }

/-! ## The tail of calendarevent_to_ical (src/imap/jmap_ical.c:4728-4744) -/

/-- The bail-out and sanity check closing calendarevent_to_ical: with
property errors already recorded the function returns as is; otherwise,
when exactly one of the ORGANIZER property and the ATTENDEE properties is
present in the produced component, invalid paths are recorded for both
replyTo and participants. -/
def calendarevent_to_ical_sanity (invalid : List String)
    (hasOrganizer hasAttendee : Bool) : List String :=
  if !invalid.isEmpty then invalid
  else if (!hasOrganizer) != (!hasAttendee) then
    insertInvalid (insertInvalid invalid "replyTo") "participants"
  else invalid

/-! ## jmapical_toical (src/imap/jmap_ical.c:4748-4824) -/

/-- The error codes of jmapical_err_t. -/
inductive JmapIcalErrCode where
  | success
  | callbackErr
  | memoryErr
  | icalErr
  | propsErr
  | uidErr
  | unknownErr
deriving Repr, DecidableEq

/-- The error sink: a code, and for property errors the accumulated pointer
list (get_invalid_props). -/
structure ErrSink where
  code : JmapIcalErrCode
  props : Option (List String)
deriving Repr, DecidableEq

/-- The source argument of jmapical_toical: absent (create), present but
holding no VEVENT without RECURRENCE-ID, or present with a located main
VEVENT carrying the given uid. -/
inductive ToicalSrc where
  | noSrc
  | srcNoMain
  | srcMain (uid : Option String)
deriving Repr, DecidableEq

/-- The uid resolution of jmapical_toical (jmap_ical.c:4794-4797): the
string value of the event's uid member, falling back to the uid of the main
VEVENT of the source component. -/
def toical_uid (obj : Json) (src : ToicalSrc) : Option String :=
  match obj.get? "uid" with
  | some (.str u) => some u
  | _ =>
    match src with
    | .srcMain u => u
    | _ => none

/-- What a run of calendarevent_to_ical leaves behind: the invalid map, a
fatal code the conversion may have written into ctx->err->code (the
re-parsed RRULE failure at line 3904), and the component it built. -/
structure ConvOutcome (α : Type) where
  invalid : List String
  fatal : Option JmapIcalErrCode
  built : α

/-- jmapical_toical (jmap_ical.c:4748-4824) with the conversion body
abstracted as `convert` (invoked with the resolved uid and the event):
locate or create the main component, resolve the uid, convert, then bubble
property errors up (code propsErr plus the pointer list, output freed) and
drop the output likewise when the conversion set a fatal code. -/
def jmapical_toical {α : Type} (convert : String → Json → ConvOutcome α)
    (obj : Json) (src : ToicalSrc) : Option α × ErrSink :=
  let err0 : ErrSink := { code := .success, props := none }
  match src with
  | .srcNoMain => (none, { err0 with code := .icalErr })
  | _ =>
    match toical_uid obj src with
    | none => (none, { err0 with code := .uidErr })
    | some u =>
      let out := convert u obj
      if !out.invalid.isEmpty then
        (none, { code := .propsErr, props := some out.invalid })
      else
        match out.fatal with
        | some c => (none, { err0 with code := c })
        | none => (some out.built, err0)

/-! ## Helper lemmas about the invalid map -/

theorem mem_insertInvalid {m : List String} {p : String} (q : String)
    (h : p ∈ m) : p ∈ insertInvalid m q := by
  unfold insertInvalid
  split
  · exact h
  · exact List.mem_append_left _ h

theorem mem_addInvalids_left {m : List String} {p : String} (adds : List String)
    (h : p ∈ m) : p ∈ addInvalids m adds := by
  induction adds generalizing m with
  | nil => exact h
  | cons a rest ih => exact ih (mem_insertInvalid a h)

theorem self_mem_insertInvalid (m : List String) (p : String) :
    p ∈ insertInvalid m p := by
  unfold insertInvalid
  split
  · next h => exact List.mem_of_elem_eq_true h
  · exact List.mem_append_right _ (List.mem_singleton.mpr rfl)

theorem mem_addInvalids_right {p : String} (m : List String) {adds : List String}
    (h : p ∈ adds) : p ∈ addInvalids m adds := by
  induction adds generalizing m with
  | nil => cases h
  | cons a rest ih =>
    rcases List.mem_cons.mp h with h1 | h2
    · subst h1
      exact mem_addInvalids_left rest (self_mem_insertInvalid m p)
    · exact ih _ h2

/-! ## Helper lemmas about the rsvp loop -/

theorem rsvp_step_inr {hatts : List (String × Attendee)} {prop : Attendee}
    {s s2 : Attendee × Nat} (h : rsvp_step hatts prop s = Sum.inr s2) :
    s2.2 = s.2 + 1 ∧ s.2 + 1 ≤ 64 := by
  obtain ⟨cur, d⟩ := s
  simp only [rsvp_step] at h
  split at h
  · simp at h
  · simp at h
  · simp at h
  · simp at h
  · simp at h
  · split at h
    · split at h
      · split at h
        · simp at h
        · next hle =>
          injection h with h2
          subst h2
          exact ⟨rfl, by omega⟩
      · simp at h
    · simp at h

theorem rsvp_run_isSome (hatts : List (String × Attendee)) (prop : Attendee) :
    ∀ (fuel : Nat) (s : Attendee × Nat), s.2 ≤ 64 → 65 - s.2 ≤ fuel →
      (rsvp_run hatts prop fuel s).isSome = true := by
  intro fuel
  induction fuel with
  | zero => intro s h1 h2; omega
  | succ n ih =>
    intro s h1 h2
    simp only [rsvp_run]
    cases hstep : rsvp_step hatts prop s with
    | inl r => simp
    | inr s2 =>
      obtain ⟨h3, h4⟩ := rsvp_step_inr hstep
      exact ih s2 (by omega) (by omega)

/-! ## Concrete inputs used by the closed statements below -/

/-- Attendee A of the delegation-chain scenario: PARTSTAT=DELEGATED with
DELEGATED-TO pointing at B. -/
def attA : Attendee := { partstat := some .delegated, delegatedTo := some "mailto:b@local" }

/-- Attendee B: PARTSTAT=DELEGATED with DELEGATED-TO pointing at C. -/
def attB : Attendee := { partstat := some .delegated, delegatedTo := some "mailto:c@local" }

/-- Attendee C: PARTSTAT=ACCEPTED. -/
def attC : Attendee := { partstat := some .accepted, delegatedTo := none }

/-- The attendee index for the A - B - C chain, keyed by attendee URI. -/
def demoAtts : List (String × Attendee) :=
  [("mailto:a@local", attA), ("mailto:b@local", attB), ("mailto:c@local", attC)]

/-- A small timezone database for closed statements. -/
def demo_tzdb : String → Option Tz := fun s =>
  if s == "Etc/UTC" || s == "Europe/Berlin" || s == "America/New_York" then some s
  else none

/-- An all-day event document that nevertheless carries a non-null start
timezone and no locations. -/
def demo_allday_event : Json :=
  Json.obj [("timeZone", Json.str "Europe/Berlin"),
            ("start", Json.str "2020-01-01T00:00:00"),
            ("title", Json.str "New Year")]

/-- A rel="end" pseudo-location carrying a timezone. -/
def demo_end_loc : Json :=
  Json.obj [("rel", Json.str "end"), ("timeZone", Json.str "Europe/Berlin")]

/-- A locations object holding only the end-zone pseudo-location. -/
def demo_end_locations : Json := Json.obj [("loc1", demo_end_loc)]

/-- An all-day event document carrying an end-zone pseudo-location. -/
def demo_endloc_event : Json :=
  Json.obj [("timeZone", Json.null),
            ("start", Json.str "2020-01-01T00:00:00"),
            ("locations", demo_end_locations)]

/-- A master event document for override scenarios. -/
def demo_master : Json :=
  Json.obj [("title", Json.str "orig"), ("start", Json.str "2020-01-15T09:00:00")]

/-- An override patch carrying both a title change and the forbidden key
uid. -/
def demo_override : Json :=
  Json.obj [("title", Json.str "changed"), ("uid", Json.str "other")]

/-- A recurrence rule object carrying both terminators. -/
def demo_recur : Json :=
  Json.obj [("frequency", Json.str "weekly"), ("count", Json.int 4),
            ("until", Json.str "2020-06-01T00:00:00")]

/-- An alert with a 30-minute offset firing before the start. -/
def demo_alert : Json :=
  Json.obj [("offset", Json.str "PT30M"), ("relativeTo", Json.str "before-start")]

/-- An exception VEVENT (carries a RECURRENCE-ID). -/
def demo_exc1 : VEventInfo := { hasRecurrenceId := true, uid := "e1" }

/-- A second exception VEVENT. -/
def demo_exc2 : VEventInfo := { hasRecurrenceId := true, uid := "e2" }

/-- A stand-in for calendarevent_from_ical in closed statements. -/
def demo_convert : VEventInfo → Json := fun c => Json.str c.uid

/-- A stand-in conversion outcome recording one invalid property. -/
def demo_conv : String → Json → ConvOutcome Unit :=
  fun _ _ => { invalid := ["title"], fatal := none, built := () }

/-- The printed duration always leads with P. -/
theorem durationBody_head (d : IcalDuration) :
    (durationBody d).data.head? = some 'P' := by
  have h : ∀ u : String, (("P" ++ u).data).head? = some 'P' := by
    intro u
    rw [String.data_append]
    rfl
  simp only [durationBody]
  exact h _

/-! ## Claim theorems -/

/-- Claim C1 counterexample: the claim asserts that an override patch
carrying both title and the forbidden key uid produces an exception
component with only the title change applied; the code instead skips the
whole override (jmap_ical.c:4340-4354): the loop body yields `ignored`, so
no exception component is emitted for this entry at all. -/
theorem override_forbidden_keys_counterexample :
    override_to_ical_one patch_apply_toplevel none false demo_master
      "2020-01-15T09:00:00" demo_override = OverrideAction.ignored := rfl

/-- Claim C1 (amended): on the write path, a recurrence override patch that
is not an exclusion and contains a key from the forbidden set is ignored
wholesale - no exception component is emitted for it and the remaining
patch keys are not applied either. -/
theorem override_forbidden_keys_skip_whole_patch
    (patchApply : Json → Json → Option Json) (tzstart : Option Tz)
    (is_allday : Bool) (master : Json) (id : String) (override : Json)
    (hparse : (localdate_to_icaltime id tzstart is_allday).isSome = true)
    (hexcl : override.get? "excluded" = none)
    (hforb : override.keys.any (fun k => forbidden_override_keys.contains k) = true) :
    override_to_ical_one patchApply tzstart is_allday master id override =
      OverrideAction.ignored := by
  obtain ⟨t, ht⟩ := Option.isSome_iff_exists.mp hparse
  have hsize : (override.objSize == 0) = false := by
    cases override with
    | obj ms =>
      cases ms with
      | nil => simp [Json.keys] at hforb
      | cons a rest => simp [Json.objSize]
    | null => simp [Json.keys] at hforb
    | bool b => simp [Json.keys] at hforb
    | int n => simp [Json.keys] at hforb
    | str s => simp [Json.keys] at hforb
    | arr es => simp [Json.keys] at hforb
  simp only [override_to_ical_one, ht, hexcl]
  rw [hsize, hforb]
  rfl

/-- Witness for override_forbidden_keys_skip_whole_patch at a concrete
patch carrying title and uid. -/
theorem override_forbidden_keys_skip_whole_patch_witness :
    override_to_ical_one patch_apply_toplevel none false demo_master
      "2020-01-22T09:00:00" demo_override = OverrideAction.ignored :=
  override_forbidden_keys_skip_whole_patch patch_apply_toplevel none false
    demo_master "2020-01-22T09:00:00" demo_override rfl rfl rfl

/-- Claim C2 (code bug): in the chain A delegated to B, B delegated to C, C
accepted, the code resolves A to needs-action instead of accepted: line
1244 re-reads the DELEGATED-TO parameter of the original attendee on every
iteration, so the traversal never advances past B and runs into the depth
cap.  The one-hop chain from B resolves to accepted, the behaviour the
comments at lines 1243 and 1250 intend for every hop. -/
theorem delegation_chain_two_hops_needs_action :
    participant_rsvpResponse demoAtts attA = "needs-action" ∧
    participant_rsvpResponse demoAtts attB = "accepted" :=
  ⟨rfl, rfl⟩

/-- Claim C3: the rsvpResponse loop terminates on every input - 65
iterations always suffice, and the total resolution function returns
exactly the loop's result - and a traversal exceeding the depth cap of 64
resolves to needs-action: no step leaves depth 64 in the loop, and the
delegation step at depth 64 exits with needs-action. -/
theorem rsvp_resolution_terminates (hatts : List (String × Attendee))
    (prop : Attendee) :
    (rsvp_run hatts prop 65 (prop, 0)).isSome = true ∧
    rsvp_run hatts prop 65 (prop, 0) = some (participant_rsvpResponse hatts prop) ∧
    (∀ cur s2, rsvp_step hatts prop (cur, 64) ≠ Sum.inr s2) ∧
    (∀ cur uri next, cur.partstat = some PartStat.delegated →
      prop.delegatedTo = some uri → hash_lookup uri hatts = some next →
      rsvp_step hatts prop (cur, 64) = Sum.inl "needs-action") := by
  have h1 := rsvp_run_isSome hatts prop 65 (prop, 0) (by omega) (by omega)
  refine ⟨h1, ?_, ?_, ?_⟩
  · obtain ⟨r, hr⟩ := Option.isSome_iff_exists.mp h1
    rw [hr, participant_rsvpResponse, hr]
    rfl
  · intro cur s2 hstep
    have h2 := (rsvp_step_inr hstep).2
    omega
  · intro cur uri next hps hdel hlook
    simp [rsvp_step, hps, hdel, hlook]

/-- Witness for rsvp_resolution_terminates at the concrete chain. -/
theorem rsvp_resolution_terminates_witness :
    (rsvp_run demoAtts attA 65 (attA, 0)).isSome = true ∧
    rsvp_step demoAtts attA (attA, 64) = Sum.inl "needs-action" :=
  ⟨(rsvp_resolution_terminates demoAtts attA).1,
   (rsvp_resolution_terminates demoAtts attA).2.2.2 attA "mailto:b@local" attB
     rfl rfl rfl⟩

/-- Claim C4: on the write path, whenever the conversion ends with a
non-empty invalid-property map, jmapical_toical returns no iCalendar output
and the error sink carries the property-error code together with the
accumulated pointer list (jmap_ical.c:4807-4819). -/
theorem toical_property_errors_return_null {α : Type}
    (convert : String → Json → ConvOutcome α) (obj : Json) (src : ToicalSrc)
    (u : String) (hsrc : src ≠ ToicalSrc.srcNoMain)
    (huid : toical_uid obj src = some u)
    (hinv : (convert u obj).invalid ≠ []) :
    jmapical_toical convert obj src =
      (none, { code := JmapIcalErrCode.propsErr,
               props := some (convert u obj).invalid }) := by
  have hne : (convert u obj).invalid.isEmpty = false := by
    cases hl : (convert u obj).invalid with
    | nil => exact absurd hl hinv
    | cons a rest => rfl
  cases src with
  | srcNoMain => exact absurd rfl hsrc
  | noSrc => simp [jmapical_toical, huid, hne]
  | srcMain v => simp [jmapical_toical, huid, hne]

/-- Witness for toical_property_errors_return_null. -/
theorem toical_property_errors_return_null_witness :
    jmapical_toical demo_conv (Json.obj [("uid", Json.str "u1")]) ToicalSrc.noSrc =
      (none, { code := JmapIcalErrCode.propsErr, props := some ["title"] }) :=
  toical_property_errors_return_null demo_conv (Json.obj [("uid", Json.str "u1")])
    ToicalSrc.noSrc "u1" (by decide) rfl (by decide)

/-- Claim C5: a recurrence rule object carrying both a count and an until
key gets invalid paths recorded for both terminators
(jmap_ical.c:3865-3868). -/
theorem recurrence_count_until_exclusive (recur : Json) (tzstart : Option Tz)
    (is_allday : Bool)
    (hc : (recur.get? "count").isSome = true)
    (hu : (recur.get? "until").isSome = true) :
    "recurrenceRule/count" ∈ (recurrence_terminators_to_ical recur tzstart is_allday).1 ∧
    "recurrenceRule/until" ∈ (recurrence_terminators_to_ical recur tzstart is_allday).1 := by
  simp only [recurrence_terminators_to_ical, hc, hu, Bool.and_self, if_true]
  constructor
  · exact mem_addInvalids_left _ (mem_addInvalids_left _
      (mem_addInvalids_right _ (by simp)))
  · exact mem_addInvalids_left _ (mem_addInvalids_left _
      (mem_addInvalids_right _ (by simp)))

/-- Witness for recurrence_count_until_exclusive. -/
theorem recurrence_count_until_exclusive_witness :
    "recurrenceRule/count" ∈ (recurrence_terminators_to_ical demo_recur (some "Etc/UTC") false).1 ∧
    "recurrenceRule/until" ∈ (recurrence_terminators_to_ical demo_recur (some "Etc/UTC") false).1 :=
  recurrence_count_until_exclusive demo_recur (some "Etc/UTC") false rfl rfl

/-- Claim C6 counterexample: an event with isAllDay true, the non-null
start timeZone Europe/Berlin and no locations violates the all-day
coupling, yet the write path records no invalid path at all: the
purge-and-rebuild tail runs and the non-floating start zone is kept. -/
theorem allday_timezone_not_rejected :
    (startend_to_ical demo_tzdb demo_allday_event true true freshComp).invalid = [] ∧
    (startend_to_ical demo_tzdb demo_allday_event true true freshComp).tzstart =
      some "Europe/Berlin" ∧
    (startend_to_ical demo_tzdb demo_allday_event true true freshComp).wroteProps = true := by
  refine ⟨?_, ?_, ?_⟩ <;> decide

/-- Claim C6 (amended): the all-day coupling is enforced only through the
end-location: when isAllDay is true and the first rel="end" location
carrying a timeZone resolves to a non-floating zone, the invalid path
locations/<id>/timeZone is recorded (jmap_ical.c:2772-2775).  A non-null
start timeZone alone, with no such location, is not rejected (see
allday_timezone_not_rejected). -/
theorem allday_endzone_coupling_recorded (tzdb : String → Option Tz)
    (event : Json) (isCreate : Bool) (comp : CompTemporal)
    (locs loc : Json) (id z : String) (tz : Tz)
    (hlocs : event.get? "locations" = some locs)
    (hnn : jsonIsNull (some locs) = false)
    (hfind : find_endtimezone_loc locs = some (id, loc))
    (htz : loc.get? "timeZone" = some (Json.str z))
    (hdb : tzdb z = some tz) :
    ("locations/" ++ jsonPointerEncode id ++ "/timeZone") ∈
      (startend_to_ical tzdb event isCreate true comp).invalid := by
  have hmem : ("locations/" ++ jsonPointerEncode id ++ "/timeZone") ∈
      (startend_endtz tzdb event isCreate true comp.dtendTzid
        (startend_starttz tzdb event isCreate true comp.dtstartTzid).2.1
        (startend_starttz tzdb event isCreate true comp.dtstartTzid).2.2).1 := by
    have hz : jsonIsNull (some (Json.str z)) = false := rfl
    simp [startend_endtz, hlocs, hnn, hfind, htz, hz, hdb]
  simp only [startend_to_ical]
  exact mem_addInvalids_left _ (mem_addInvalids_left _
    (mem_addInvalids_right _ hmem))

/-- Witness for allday_endzone_coupling_recorded at the concrete event. -/
theorem allday_endzone_coupling_recorded_witness :
    ("locations/" ++ jsonPointerEncode "loc1" ++ "/timeZone") ∈
      (startend_to_ical demo_tzdb demo_endloc_event true true freshComp).invalid :=
  allday_endzone_coupling_recorded demo_tzdb demo_endloc_event true freshComp
    demo_end_locations demo_end_loc "loc1" "Europe/Berlin" "Europe/Berlin"
    rfl rfl rfl rfl rfl

/-- Claim C7: the alert sign fold.  Read path (jmap_ical.c:1791-1807): the
emitted offset carries no negative sign and its rendering leads with P, and
relativeTo is a before-* value exactly when the trigger duration was
negative.  Write path (jmap_ical.c:3513-3540): a before-* relativeTo sets
the negative sign on the emitted TRIGGER duration. -/
theorem alert_sign_fold :
    (∀ (d : IcalDuration) (rel : IcalRelated),
      (alert_relativeTo_offset d rel).2.is_neg = false ∧
      (icaldurationtype_as_ical_string
        (alert_relativeTo_offset d rel).2).data.head? = some 'P' ∧
      (((alert_relativeTo_offset d rel).1 ∈ ["before-start", "before-end"]) ↔
        d.is_neg = true)) ∧
    (∀ (alert : Json) (s relStr : String) (d : IcalDuration),
      alert.get? "offset" = some (Json.str s) →
      icaldurationtype_from_string s = some d →
      alert.get? "relativeTo" = some (Json.str relStr) →
      (relStr = "before-start" ∨ relStr = "before-end") →
      (alert_trigger_to_ical alert).duration = some { d with is_neg := true }) := by
  constructor
  · intro d rel
    refine ⟨rfl, durationBody_head _, ?_⟩
    cases hneg : d.is_neg <;> cases rel <;>
      simp [alert_relativeTo_offset, hneg]
  · intro alert s relStr d h1 h2 h3 h4
    rcases h4 with rfl | rfl
    · simp [alert_trigger_to_ical, readprop, unpackS, h1, h2, h3]
    · simp [alert_trigger_to_ical, readprop, unpackS, h1, h2, h3]

/-- Witness for alert_sign_fold: a 30-minute trigger firing before the
start, in both directions. -/
theorem alert_sign_fold_witness :
    ((alert_relativeTo_offset ⟨true, 0, 0, 0, 30, 0⟩ IcalRelated.relStart).2.is_neg = false ∧
      (icaldurationtype_as_ical_string
        (alert_relativeTo_offset ⟨true, 0, 0, 0, 30, 0⟩ IcalRelated.relStart).2).data.head? = some 'P' ∧
      (((alert_relativeTo_offset ⟨true, 0, 0, 0, 30, 0⟩ IcalRelated.relStart).1 ∈
          ["before-start", "before-end"]) ↔
        (⟨true, 0, 0, 0, 30, 0⟩ : IcalDuration).is_neg = true)) ∧
    (alert_trigger_to_ical demo_alert).duration = some ⟨true, 0, 0, 0, 30, 0⟩ :=
  ⟨alert_sign_fold.1 ⟨true, 0, 0, 0, 30, 0⟩ IcalRelated.relStart,
   alert_sign_fold.2 demo_alert "PT30M" "before-start" ⟨false, 0, 0, 0, 30, 0⟩
     rfl rfl rfl (Or.inl rfl)⟩

/-- Claim C8: jmapical_tojmap returns null for a container without any
VEVENT, and when every VEVENT carries a RECURRENCE-ID the first one is
promoted to master and translated (jmap_ical.c:2515-2530). -/
theorem tojmap_master_promotion (convert : VEventInfo → Json)
    (comps : List VEventInfo) :
    (comps = [] → jmapical_tojmap convert comps = none) ∧
    (∀ c cs, comps = c :: cs → (∀ x ∈ comps, x.hasRecurrenceId = true) →
      jmapical_tojmap convert comps = some (convert c)) := by
  constructor
  · intro h; subst h; rfl
  · intro c cs h hall
    subst h
    have hfind : (c :: cs).find? (fun x => !x.hasRecurrenceId) = none := by
      rw [List.find?_eq_none]
      intro x hx
      simp [hall x hx]
    simp [jmapical_tojmap, tojmap_main_vevent, hfind]

/-- Witness for tojmap_master_promotion: the empty container, and a
container of two exception components. -/
theorem tojmap_master_promotion_witness :
    jmapical_tojmap demo_convert [] = none ∧
    jmapical_tojmap demo_convert [demo_exc1, demo_exc2] =
      some (demo_convert demo_exc1) :=
  ⟨(tojmap_master_promotion demo_convert []).1 rfl,
   (tojmap_master_promotion demo_convert [demo_exc1, demo_exc2]).2 demo_exc1
     [demo_exc2] rfl (by decide)⟩

/-- Claim C9: on the read path, a date-valued DTSTART always yields
isAllDay true with a null timeZone; a TZID found on such a DTSTART - bogus
iCalendar data - is discarded (jmap_ical.c:2231-2244, 2389-2394). -/
theorem read_allday_timezone_null (tzid : Option String) :
    (calendarevent_from_ical_tz true tzid).isAllDay = true ∧
    (calendarevent_from_ical_tz true tzid).timeZone = none := by
  constructor
  · rfl
  · simp [calendarevent_from_ical_tz]

/-- Witness for read_allday_timezone_null at a concrete bogus TZID. -/
theorem read_allday_timezone_null_witness :
    (calendarevent_from_ical_tz true (some "Europe/Berlin")).isAllDay = true ∧
    (calendarevent_from_ical_tz true (some "Europe/Berlin")).timeZone = none :=
  read_allday_timezone_null (some "Europe/Berlin")

/-- Claim C10: when the conversion finished without property errors and the
produced component has exactly one of ORGANIZER and ATTENDEE present, the
closing sanity check records invalid paths for both replyTo and
participants (jmap_ical.c:4734-4744), so the write fails with a property
error instead of emitting the lopsided component. -/
theorem organizer_attendee_sanity_check (invalid : List String)
    (hasOrganizer hasAttendee : Bool)
    (hclean : invalid = [])
    (hmix : hasOrganizer ≠ hasAttendee) :
    calendarevent_to_ical_sanity invalid hasOrganizer hasAttendee =
      ["replyTo", "participants"] := by
  subst hclean
  cases hasOrganizer <;> cases hasAttendee <;>
    first
      | exact absurd rfl hmix
      | rfl

/-- Witness for organizer_attendee_sanity_check: an ORGANIZER with no
ATTENDEEs. -/
theorem organizer_attendee_sanity_check_witness :
    calendarevent_to_ical_sanity [] true false = ["replyTo", "participants"] :=
  organizer_attendee_sanity_check [] true false rfl (by decide)

end JmapIcal
